import Mathlib

/-!
Shallow embedding of `dn-text-normalize-hotkey-dll.c`: a Windows keyboard-hook
DLL that watches for the Ctrl+Q chord and launches a companion executable.

Machine words are modelled as `Nat` (with explicit bit masking where the source
masks); external call results (`SetWindowsHookEx`, `UnhookWindowsHookEx`,
`CreateProcessW`) are passed in as parameters; observable effects (process
creation attempts, message boxes) are collected in result structures.
-/

/-- Virtual-key code of the Ctrl key (`VK_CONTROL` = 0x11). -/
def VK_CONTROL : Nat := 0x11

/-- Virtual-key code of the letter Q, the designated chord letter
(the character code of `'Q'`, 0x51). -/
def VK_Q : Nat := 0x51

/-- Hook classification code `HC_ACTION` (= 0). -/
def HC_ACTION : Int := 0

/-- The cross-process shared segment `.shareddata` of the DLL:
`hKeyHook`, `g_hWnd`, `is_ctrl_key_pressed` (source lines 18-22).
Handles are modelled as `Nat`, `0` standing for `NULL`. -/
structure SharedState where
  hKeyHook : Nat
  g_hWnd : Nat
  is_ctrl_key_pressed : Bool
deriving DecidableEq, Repr

/-- Static initial values of the shared segment (`= 0`, `= 0`, `= FALSE`). -/
def initialSharedState : SharedState :=
  { hKeyHook := 0, g_hWnd := 0, is_ctrl_key_pressed := false }

/-- `SetHook`: stores the result of `SetWindowsHookEx` into `hKeyHook`
unconditionally; on success (non-NULL) also stores the window handle.
`installResult` models the value returned by `SetWindowsHookEx`. -/
def SetHook (s : SharedState) (hWnd : Nat) (installResult : Nat) : SharedState :=
  let s1 := { s with hKeyHook := installResult }
  if installResult = 0 then s1 else { s1 with g_hWnd := hWnd }

/-- `ResetHook`: calls `UnhookWindowsHookEx(hKeyHook)` and inspects the result,
but neither branch of the `if` modifies any state. `unhookResult` models the
value returned by `UnhookWindowsHookEx`. -/
def ResetHook (s : SharedState) (unhookResult : Int) : SharedState :=
  if unhookResult ≠ 0 then s else s

/-- Observable effects of one call to `Run`:
the command lines passed to `CreateProcessW`, the message-box texts shown,
and whether process creation succeeded. -/
structure RunResult where
  attempts : List (List Char)
  messages : List (List Char)
  succeeded : Bool
deriving DecidableEq, Repr

/-- The command line built by `Run` (source lines 63-65):
`exe_fullpath = dll_dir ++ "\" ++ exe_name`, then
`tmp = "\"" ++ exe_fullpath ++ "\" " ++ args`. -/
def runCmdLine (dll_dir exe_name args : List Char) : List Char :=
  let exe_fullpath := dll_dir ++ ['\\'] ++ exe_name
  ['\"'] ++ exe_fullpath ++ ['\"', ' '] ++ args

/-- `Run`: builds the command line and calls `CreateProcessW` once; on success
closes the returned handles, on failure shows one message box with the text
`"Failed to exec " ++ tmp`. `createProcessSucceeds` models the outcome of the
`CreateProcessW` call. -/
def Run (dll_dir exe_name args : List Char) (createProcessSucceeds : Bool) : RunResult :=
  let tmp := runCmdLine dll_dir exe_name args
  if createProcessSucceeds then
    { attempts := [tmp], messages := [], succeeded := true }
  else
    { attempts := [tmp], messages := [String.toList "Failed to exec " ++ tmp], succeeded := false }

/-- Observable outcome of one `KeyHookProc` invocation: the shared state after
the call, whether the event was swallowed (`return 1`) instead of forwarded
via `CallNextHookEx`, and the effects of any `Run` call made. -/
structure HookOutcome where
  state : SharedState
  swallowed : Bool
  attempts : List (List Char)
  messages : List (List Char)
deriving DecidableEq, Repr

/-- Outcome that forwards the event to the next hook with nothing changed. -/
def passThrough (s : SharedState) : HookOutcome :=
  { state := s, swallowed := false, attempts := [], messages := [] }

/-- `KeyHookProc` (source lines 82-123). `code < 0` forwards immediately;
under `HC_ACTION`, bit 31 of `bits` clear means key-down: Ctrl down sets the
flag, Q down with the flag set runs the companion and returns 1; bit 31 set
means key-up: Ctrl up clears the flag. Everything else falls through to
`CallNextHookEx`. -/
def KeyHookProc (dll_dir : List Char) (createProcessSucceeds : Bool)
    (s : SharedState) (code : Int) (vk : Nat) (bits : Nat) : HookOutcome :=
  if code < 0 then passThrough s
  else if code = HC_ACTION then
    if Nat.land bits 0x80000000 = 0 then
      if vk = VK_CONTROL then
        passThrough { s with is_ctrl_key_pressed := true }
      else if vk = VK_Q then
        if s.is_ctrl_key_pressed then
          let r := Run dll_dir (String.toList "dn-text-normalize.exe") [] createProcessSucceeds
          { state := s, swallowed := true, attempts := r.attempts, messages := r.messages }
        else passThrough s
      else passThrough s
    else
      if vk = VK_CONTROL then
        passThrough { s with is_ctrl_key_pressed := false }
      else passThrough s
  else passThrough s

/-- Path-separator test of `GetDirNameFromFilePathW` (source line 151). -/
def isSepChar (c : Char) : Bool := c == '/' || c == '\\'

/-- The loop of `GetDirNameFromFilePathW` (source lines 148-162): `dst` is the
output accumulated so far, `seg` is the live portion `tmp[0..wp-1]` of the
work buffer. A separator flushes `seg` into `dst` and restarts `seg` with the
separator character itself; other characters append to `seg`. -/
def gdLoop : List Char → List Char → List Char → List Char
  | dst, _, [] => dst
  | dst, seg, c :: rest =>
    if isSepChar c then gdLoop (dst ++ seg) [c] rest
    else gdLoop dst (seg ++ [c]) rest

/-- Core of `GetDirNameFromFilePathW` after the null-argument guard: run the
loop, then replace an empty result by the root sentinel `"\"`
(source lines 140-167). -/
def getDirNameCore (filepath : List Char) : List Char :=
  let dst := gdLoop [] [] filepath
  if dst = [] then ['\\'] else dst

/-- Result of `GetDirNameFromFilePathW`: either the early return taken when a
pointer argument is `NULL` (no directory produced), or the computed
directory. -/
inductive DirNameResult where
  | invalidArgument
  | ok (dir : List Char)
deriving DecidableEq, Repr

/-- `GetDirNameFromFilePathW` (source lines 128-168): `none` models a `NULL`
pointer argument; the guard at lines 135-138 returns early, producing no
directory, when either argument is `NULL`. -/
def GetDirNameFromFilePathW (dst filepath : Option (List Char)) : DirNameResult :=
  match dst, filepath with
  | some _, some fp => DirNameResult.ok (getDirNameCore fp)
  | _, _ => DirNameResult.invalidArgument

/-- Everything strictly before the last path separator of the input, or `none`
when the input contains no separator. -/
def dirBeforeLastSep : List Char → Option (List Char)
  | [] => none
  | c :: rest =>
    match dirBeforeLastSep rest with
    | some p => some (c :: p)
    | none => if isSepChar c then some [] else none

/-- Spec-side `resolveDirectory`, following the claim verbatim: everything
before the last separator, excluding it; the root sentinel only when the
input contains no separator at all. -/
def resolveDirectorySpec (fp : List Char) : List Char :=
  match dirBeforeLastSep fp with
  | some p => p
  | none => ['\\']

/-- Amended spec-side `resolveDirectory`: as `resolveDirectorySpec`, except
that an empty portion before the last separator also yields the root
sentinel. -/
def resolveDirectoryAmended (fp : List Char) : List Char :=
  match dirBeforeLastSep fp with
  | some p => if p = [] then ['\\'] else p
  | none => ['\\']

/-- Fold `KeyHookProc` over a sequence of `HC_ACTION` key events given as
`(vk, bits)` pairs, tracking the shared state. -/
def processKeyEvents (dll_dir : List Char) (cps : Bool) (s : SharedState)
    (evs : List (Nat × Nat)) : SharedState :=
  evs.foldl (fun st e => (KeyHookProc dll_dir cps st HC_ACTION e.1 e.2).state) s

/-- Spec-side modifier state: `true` iff the most recent Ctrl transition in the
sequence is a key-down; the initial value if the sequence has no Ctrl
transition. -/
def recentCtrlDown (init : Bool) (evs : List (Nat × Nat)) : Bool :=
  match List.find? (fun e => e.1 == VK_CONTROL) evs.reverse with
  | some e => Nat.land e.2 0x80000000 == 0
  | none => init

theorem keyHook_flag_step (dir : List Char) (cps : Bool) (s : SharedState) (vk bits : Nat) :
    (KeyHookProc dir cps s HC_ACTION vk bits).state.is_ctrl_key_pressed =
      (if vk = VK_CONTROL then (Nat.land bits 0x80000000 == 0)
       else s.is_ctrl_key_pressed) := by
  by_cases hd : Nat.land bits 0x80000000 = 0 <;>
    by_cases hc : vk = VK_CONTROL <;>
      simp [KeyHookProc, HC_ACTION, passThrough, hd, hc] <;>
        split_ifs <;> rfl

/-- Claim C1: for every key event processed under `HC_ACTION`, the chord
triggers (the companion executable is launched via `Run`) iff the event is a
key-down transition, the key code is the letter Q, and the Ctrl flag is set at
that moment; a key-up of Q never triggers. -/
theorem chord_trigger_iff (dir : List Char) (cps : Bool) (s : SharedState) (vk bits : Nat) :
    (KeyHookProc dir cps s HC_ACTION vk bits).attempts ≠ [] ↔
      (Nat.land bits 0x80000000 = 0 ∧ vk = VK_Q ∧ s.is_ctrl_key_pressed = true) := by
  cases cps <;>
    by_cases hd : Nat.land bits 0x80000000 = 0 <;>
      by_cases hc : vk = VK_CONTROL <;>
        by_cases hq : vk = VK_Q <;>
          cases hp : s.is_ctrl_key_pressed <;>
            simp only [VK_CONTROL, VK_Q] at hc hq <;>
              simp [KeyHookProc, HC_ACTION, passThrough, Run, runCmdLine, hd, hc, hq, hp,
                VK_CONTROL, VK_Q]

/-- Claim C2: after processing any finite sequence of key events, the shared
Ctrl flag is true iff the most recent Ctrl transition in the sequence was a
key-down (the initial value if there was none); events of other keys never
change the flag. -/
theorem ctrl_flag_tracks_recent_transition (dir : List Char) (cps : Bool)
    (s : SharedState) (evs : List (Nat × Nat)) :
    (processKeyEvents dir cps s evs).is_ctrl_key_pressed =
      recentCtrlDown s.is_ctrl_key_pressed evs := by
  induction evs using List.reverseRecOn with
  | nil => rfl
  | append_singleton l e ih =>
    have hfold : processKeyEvents dir cps s (l ++ [e]) =
        (KeyHookProc dir cps (processKeyEvents dir cps s l) HC_ACTION e.1 e.2).state := by
      simp [processKeyEvents, List.foldl_append]
    rw [hfold, keyHook_flag_step, ih]
    by_cases hc : e.1 = VK_CONTROL
    · simp [recentCtrlDown, List.reverse_append, List.find?_cons, hc]
    · simp [recentCtrlDown, List.reverse_append, List.find?_cons, hc]

/-- Claim C3: a negative classification code is forwarded immediately with the
shared state untouched and no side effect; and the hook callback swallows an
event (returns a handled result instead of forwarding) exactly when the event
is the chord-completing key-down: code `HC_ACTION`, key-down of Q with the
Ctrl flag set. -/
theorem hook_forwarding (dir : List Char) (cps : Bool) (s : SharedState)
    (code : Int) (vk bits : Nat) :
    (code < 0 → KeyHookProc dir cps s code vk bits = passThrough s) ∧
    ((KeyHookProc dir cps s code vk bits).swallowed = true ↔
      (code = HC_ACTION ∧ Nat.land bits 0x80000000 = 0 ∧ vk = VK_Q ∧
        s.is_ctrl_key_pressed = true)) := by
  constructor
  · intro h
    simp [KeyHookProc, h]
  · by_cases hneg : code < 0
    · have : ¬ code = HC_ACTION := by simp [HC_ACTION]; omega
      simp [KeyHookProc, hneg, passThrough, this]
    · by_cases h0 : code = HC_ACTION <;>
        by_cases hd : Nat.land bits 0x80000000 = 0 <;>
          by_cases hc : vk = VK_CONTROL <;>
            by_cases hq : vk = VK_Q <;>
              cases hp : s.is_ctrl_key_pressed <;>
                simp only [VK_CONTROL, VK_Q] at hc hq <;>
                  simp only [HC_ACTION] at h0 <;>
                    simp [KeyHookProc, HC_ACTION, passThrough, hneg, h0, hd, hc, hq, hp,
                      VK_CONTROL, VK_Q]

/-- Witness for C3: a negative code (`-1`) is forwarded untouched, and the
chord-completing key-down (code 0, key-down of Q with Ctrl held) is
swallowed. -/
theorem hook_forwarding_check :
    (KeyHookProc [] true initialSharedState (-1) VK_Q 0 = passThrough initialSharedState) ∧
    (KeyHookProc [] true { initialSharedState with is_ctrl_key_pressed := true }
      HC_ACTION VK_Q 0).swallowed = true := by
  constructor
  · exact (hook_forwarding [] true initialSharedState (-1) VK_Q 0).1 (by decide)
  · exact (hook_forwarding [] true { initialSharedState with is_ctrl_key_pressed := true }
      HC_ACTION VK_Q 0).2.mpr ⟨rfl, by decide, rfl, rfl⟩

/-- Claim C10: an event whose classification code is non-negative but not
`HC_ACTION` is forwarded to the next hook with the shared state unchanged and
no launch attempt, even if it encodes a key-down of Q while Ctrl is held. -/
theorem non_action_code_passthrough (dir : List Char) (cps : Bool) (s : SharedState)
    (code : Int) (vk bits : Nat) (h0 : 0 ≤ code) (h1 : code ≠ HC_ACTION) :
    KeyHookProc dir cps s code vk bits = passThrough s := by
  unfold KeyHookProc
  rw [if_neg (by omega), if_neg h1]

/-- Witness for C10: code 3 (`HC_NOREMOVE`), key-down of Q with Ctrl held, is
forwarded with nothing changed and nothing launched. -/
theorem non_action_code_passthrough_check :
    KeyHookProc [] true { initialSharedState with is_ctrl_key_pressed := true } 3 VK_Q 0 =
      passThrough { initialSharedState with is_ctrl_key_pressed := true } :=
  non_action_code_passthrough [] true { initialSharedState with is_ctrl_key_pressed := true }
    3 VK_Q 0 (by decide) (by decide)

theorem gdLoop_eq (dst seg s : List Char) :
    gdLoop dst seg s = (match dirBeforeLastSep s with
      | none => dst
      | some p => dst ++ seg ++ p) := by
  induction s generalizing dst seg with
  | nil => rfl
  | cons c rest ih =>
    simp only [gdLoop]
    by_cases hc : isSepChar c
    · rw [if_pos hc, ih]
      cases hr : dirBeforeLastSep rest <;>
        simp [dirBeforeLastSep, hr, hc]
    · rw [if_neg hc, ih]
      cases hr : dirBeforeLastSep rest <;>
        simp [dirBeforeLastSep, hr, hc]

/-- Counterexample to claim C4: the input `"\a"` contains a separator and the
portion before that (last) separator is empty, so the claim as stated requires
the empty string; the code returns the root sentinel `"\"` instead. -/
theorem resolveDirectory_empty_head_divergence :
    getDirNameCore (String.toList "\\a") = ['\\'] ∧
    resolveDirectorySpec (String.toList "\\a") = [] := by
  constructor <;> rfl

/-- Claim C4 as amended: `getDirNameCore` returns everything before the last
path separator (either slash, mixed allowed), excluding the separator, except
that an empty such portion — in particular when the input has no separator at
all — yields the root sentinel `"\"`; the claim's three concrete examples
hold. -/
theorem resolveDirectory_amended_holds :
    (∀ fp : List Char, getDirNameCore fp = resolveDirectoryAmended fp) ∧
    getDirNameCore (String.toList "C:\\apps\\tool\\dn.dll") = String.toList "C:\\apps\\tool" ∧
    getDirNameCore (String.toList "C:/apps/tool/dn.dll") = String.toList "C:/apps/tool" ∧
    getDirNameCore (String.toList "dn.dll") = ['\\'] := by
  refine ⟨?_, by decide, by decide, by decide⟩
  intro fp
  unfold getDirNameCore resolveDirectoryAmended
  rw [gdLoop_eq]
  cases hr : dirBeforeLastSep fp with
  | none => simp
  | some p => simp

/-- Claim C5: `Run` passes to `CreateProcessW` exactly the command line built
by joining the base directory and the executable name with a single backslash,
wrapping the full path in double quotes, and appending a single space and the
raw argument string; on the claim's concrete inputs the command line is
exactly `"C:\apps\tool\dn-text-normalize.exe" ` (quoted path, trailing
space). -/
theorem run_command_line (cps : Bool) (dir exe args : List Char) :
    (Run dir exe args cps).attempts = [runCmdLine dir exe args] ∧
    runCmdLine dir exe args = ['\"'] ++ (dir ++ ['\\'] ++ exe) ++ ['\"', ' '] ++ args ∧
    runCmdLine (String.toList "C:\\apps\\tool") (String.toList "dn-text-normalize.exe") [] =
      String.toList "\"C:\\apps\\tool\\dn-text-normalize.exe\" " := by
  refine ⟨?_, rfl, by decide⟩
  cases cps <;> rfl

/-- Message-box text shown by `Run` when `CreateProcessW` fails
(source line 77). -/
def runFailMessage (dir exe args : List Char) : List Char :=
  String.toList "Failed to exec " ++ runCmdLine dir exe args

/-- Claim C6: when process creation fails, `Run` shows exactly one message box
whose text contains the attempted command line, makes exactly one creation
attempt (no retry), and the dispatcher outcome is otherwise identical to the
success case: same resulting shared state and same forwarding decision, so the
failure stays local to the one event. -/
theorem launch_failure_local (dir exe args : List Char) (s : SharedState)
    (code : Int) (vk bits : Nat) :
    (Run dir exe args false).messages = [runFailMessage dir exe args] ∧
    (∃ pre post, runFailMessage dir exe args = pre ++ runCmdLine dir exe args ++ post) ∧
    (Run dir exe args false).attempts = [runCmdLine dir exe args] ∧
    (KeyHookProc dir false s code vk bits).state = (KeyHookProc dir true s code vk bits).state ∧
    (KeyHookProc dir false s code vk bits).swallowed =
      (KeyHookProc dir true s code vk bits).swallowed := by
  refine ⟨rfl, ⟨String.toList "Failed to exec ", [], by simp [runFailMessage]⟩, rfl, ?_, ?_⟩
  · unfold KeyHookProc
    split_ifs <;> rfl
  · unfold KeyHookProc
    split_ifs <;> rfl

/-- Claim C7: `GetDirNameFromFilePathW` takes the guarded early return —
producing no directory at all — whenever either pointer argument is `NULL`,
for every value of the other argument. -/
theorem dirname_null_guard (dst fp : Option (List Char)) :
    GetDirNameFromFilePathW none fp = DirNameResult.invalidArgument ∧
    GetDirNameFromFilePathW dst none = DirNameResult.invalidArgument := by
  constructor
  · cases fp <;> rfl
  · cases dst <;> rfl

/-- Counterexample to claim C8: install a hook whose identifier is 42, then
call `ResetHook`; afterwards `hKeyHook` still holds 42, the identifier of the
previously installed hook — `ResetHook` does not clear it. -/
theorem resetHook_leaves_handle :
    (ResetHook (SetHook initialSharedState 5 42) 1).hKeyHook = 42 := by
  rfl

/-- Claim C8 as amended: `hKeyHook` is zero initially and still zero when
installation fails; a successful installation stores the new identifier; but
`ResetHook` returns the shared state entirely unchanged — in particular it
does not clear `hKeyHook`. -/
theorem hook_handle_lifecycle (s : SharedState) (hWnd h : Nat) (r : Int) :
    initialSharedState.hKeyHook = 0 ∧
    (SetHook s hWnd 0).hKeyHook = 0 ∧
    (SetHook s hWnd h).hKeyHook = h ∧
    ResetHook s r = s := by
  refine ⟨rfl, rfl, ?_, ?_⟩
  · unfold SetHook
    split_ifs <;> rfl
  · unfold ResetHook
    split_ifs <;> rfl
